import Mathlib

/-!
Shallow embedding of the `webp-validator` crate (`src/lib.rs`).

The crate has two layers:
* `validate_webp : &str -> Result<WebpInfo, String>` opens a file, hands a
  buffered reader to the external decoder `image_webp::WebPDecoder::new`,
  and maps the outcome to `Ok(WebpInfo)` or a diagnostic `Err(String)`.
* `validate_webp_ffi : *const c_char -> WebpValidationResult` is the C ABI
  adapter: it null-checks the pointer, decodes the bytes as UTF-8, calls
  `validate_webp`, and copies the outcome into a fixed-layout record whose
  `error_message` field is a freshly heap-allocated C string (or null).
  `free_error_message` reclaims that allocation.

External effects (the filesystem and the decoder probe) are modelled as an
environment of oracles mapping the path to the outcome the external world
produces for it.  Rust panics (the `.unwrap()` calls on `CString::new`) are
modelled by an `Option` layer: `none` means the call panicked and no record
was returned.  The C heap holding the error-message allocations is modelled
as a bump allocator mapping pointer ids to string contents.
-/

namespace WebpValidator

/-- Metadata a successful decoder probe reports
(`image_webp::WebPDecoder`: `dimensions`, `has_alpha`, `is_animated`,
`num_frames`).  Width, height and frame count are `u32` in the source;
no arithmetic is performed on them, so they are modelled as `Nat`. -/
structure WebPDecoder where
  width : Nat
  height : Nat
  has_alpha : Bool
  is_animated : Bool
  num_frames : Nat
deriving Repr, DecidableEq

/-- Structured error of the external decoder (`image_webp::DecodingError`),
modelled as an opaque tagged value: a variant tag plus the rendering of the
variant's payload.  Its Rust `{:?}` (derived `Debug`) rendering is the
variant name followed by the payload rendering. -/
structure DecodingError where
  tag : String
  payload : String
deriving Repr, DecidableEq

/-- Rust derived `Debug` formatting of a `DecodingError`: the variant tag
name verbatim, followed by the rendering of its payload. -/
def DecodingError.debugFmt (e : DecodingError) : String :=
  e.tag ++ e.payload

/-- Outcome of `File::open(path)`: success, or an I/O error carrying the
`Display` rendering of the underlying `std::io::Error`. -/
inductive OpenOutcome where
  | ok : OpenOutcome
  | err (desc : String) : OpenOutcome
deriving Repr, DecidableEq

/-- Outcome of the decoder probe `WebPDecoder::new(reader)` on the bytes
behind a path: a decoder handle, or a structured decoding error. -/
inductive ProbeOutcome where
  | ok (d : WebPDecoder) : ProbeOutcome
  | err (e : DecodingError) : ProbeOutcome
deriving Repr, DecidableEq

/-- The external world as seen by one call: what `File::open` does on each
path, and what the decoder probe does on the bytes behind each path. -/
structure Env where
  openFile : String → OpenOutcome
  probe : String → ProbeOutcome

/-- `WebpInfo` struct of the crate (`src/lib.rs` lines 9-15). -/
structure WebpInfo where
  width : Nat
  height : Nat
  has_alpha : Bool
  is_animated : Bool
  num_frames : Nat
deriving Repr, DecidableEq

/-- `WebpInfo::new_valid` (`src/lib.rs` lines 18-26): copy the decoder's
metadata fields into a `WebpInfo`. -/
def WebpInfo.new_valid (d : WebPDecoder) : WebpInfo :=
  { width := d.width
    height := d.height
    has_alpha := d.has_alpha
    is_animated := d.is_animated
    num_frames := d.num_frames }

/-- `validate_webp` (`src/lib.rs` lines 30-38): open the file (mapping an
open failure to `Err("failed to open file: <e>")`), then probe it with the
decoder, mapping probe success to `Ok(WebpInfo::new_valid(..))` and probe
failure to `Err("webp format validation failed: <{:?} of e>")`.
The `BufReader` wrapper is pure plumbing and has no observable effect. -/
def validate_webp (env : Env) (path : String) : Except String WebpInfo :=
  match env.openFile path with
  | .err e => .error ("failed to open file: " ++ e)
  | .ok =>
    match env.probe path with
    | .ok decoder => .ok (WebpInfo.new_valid decoder)
    | .err e => .error ("webp format validation failed: " ++ e.debugFmt)

/-! ### The C heap model

`CString::new(s).unwrap().into_raw()` heap-allocates a null-terminated copy
of `s` and leaks it to a raw pointer; `CString::from_raw` reclaims it.
The heap is a bump allocator: `next` is the next fresh pointer id, `blocks`
associates each live pointer id with the string stored there. -/

/-- The C heap holding the error-message allocations. -/
structure Heap where
  next : Nat
  blocks : List (Nat × String)
deriving Repr, DecidableEq

/-- The empty heap. -/
def Heap.empty : Heap := ⟨0, []⟩

/-- Contents of the allocation behind pointer id `p`, if `p` is live. -/
def Heap.lookup (h : Heap) (p : Nat) : Option String :=
  (h.blocks.find? (fun b => b.1 == p)).map Prod.snd

/-- All live pointer ids are below the bump cursor. -/
def Heap.wf (h : Heap) : Prop :=
  ∀ b ∈ h.blocks, b.1 < h.next

/-- `CString::into_raw`: allocate a null-terminated copy of `s` and hand the
raw pointer to the caller. -/
def Heap.intoRaw (h : Heap) (s : String) : Nat × Heap :=
  (h.next, ⟨h.next + 1, (h.next, s) :: h.blocks⟩)

/-- `CString::new(s)`: succeeds iff `s` has no interior NUL byte (in UTF-8 a
zero byte occurs exactly where the character U+0000 occurs), returning the
C string contents; fails with `NulError` otherwise. -/
def cstringNew (s : String) : Option String :=
  if s.data.contains (Char.ofNat 0) then none else some s

/-- `WebpValidationResult` (`src/lib.rs` lines 42-50): the `#[repr(C)]`
record returned across the FFI boundary.  `error_message` is a nullable
owning pointer: `none` is the null pointer, `some p` the pointer id `p`. -/
structure WebpValidationResult where
  is_valid : Bool
  width : Nat
  height : Nat
  has_alpha : Bool
  is_animated : Bool
  num_frames : Nat
  error_message : Option Nat
deriving Repr, DecidableEq

/-- A foreign path argument: the null pointer, or a pointer to a buffer
whose bytes before the NUL terminator are `bs` (each entry a byte value). -/
inductive CPath where
  | null : CPath
  | bytes (bs : List Nat) : CPath
deriving Repr, DecidableEq

/-- Is `b` a UTF-8 continuation byte (`10xxxxxx`)? -/
def isUtf8Cont (b : Nat) : Bool :=
  0x80 ≤ b && b < 0xC0

/-- Strict UTF-8 decoding of a byte list to code points, as performed by
Rust's `str::from_utf8` (which `CStr::to_str` calls): rejects lone or
misplaced continuation bytes, overlong encodings, surrogate code points and
code points above U+10FFFF. -/
def utf8Decode : List Nat → Option (List Nat)
  | [] => some []
  | b :: bs =>
    if b < 0x80 then
      (utf8Decode bs).map (fun cs => b :: cs)
    else if b < 0xC2 then
      none
    else if b < 0xE0 then
      match bs with
      | b1 :: bs2 =>
        if isUtf8Cont b1 then
          (utf8Decode bs2).map (fun cs => ((b - 0xC0) * 0x40 + (b1 - 0x80)) :: cs)
        else none
      | [] => none
    else if b < 0xF0 then
      match bs with
      | b1 :: b2 :: bs3 =>
        if isUtf8Cont b1 && isUtf8Cont b2 then
          let cp := (b - 0xE0) * 0x1000 + (b1 - 0x80) * 0x40 + (b2 - 0x80)
          if cp < 0x800 || (0xD800 ≤ cp && cp < 0xE000) then none
          else (utf8Decode bs3).map (fun cs => cp :: cs)
        else none
      | _ => none
    else if b < 0xF5 then
      match bs with
      | b1 :: b2 :: b3 :: bs4 =>
        if isUtf8Cont b1 && isUtf8Cont b2 && isUtf8Cont b3 then
          let cp := (b - 0xF0) * 0x40000 + (b1 - 0x80) * 0x1000
            + (b2 - 0x80) * 0x40 + (b3 - 0x80)
          if cp < 0x10000 || 0x10FFFF < cp then none
          else (utf8Decode bs4).map (fun cs => cp :: cs)
        else none
      | _ => none
    else none

/-- `CStr::to_str` on the bytes before the NUL terminator: decode them as
UTF-8, building the Rust `&str` value (every decoded code point is a valid
scalar value, so `Char.ofNat` is exact). -/
def cStrToStr (bs : List Nat) : Option String :=
  (utf8Decode bs).map (fun cs => String.mk (cs.map Char.ofNat))

/-- `validate_webp_ffi` (`src/lib.rs` lines 59-108).  Takes the heap in
which error messages are allocated and returns the record together with the
new heap, or `none` when one of the `.unwrap()` calls on `CString::new`
panics (so that no record crosses the boundary). -/
def validate_webp_ffi (env : Env) (h : Heap) (path : CPath) :
    Option (WebpValidationResult × Heap) :=
  match path with
  | .null =>
    match cstringNew "path is null" with
    | none => none
    | some s =>
      some (⟨false, 0, 0, false, false, 0, some (h.intoRaw s).1⟩, (h.intoRaw s).2)
  | .bytes bs =>
    match cStrToStr bs with
    | none =>
      match cstringNew "invalid utf-8 in path" with
      | none => none
      | some s =>
        some (⟨false, 0, 0, false, false, 0, some (h.intoRaw s).1⟩, (h.intoRaw s).2)
    | some path_str =>
      match validate_webp env path_str with
      | .ok info =>
        some (⟨true, info.width, info.height, info.has_alpha,
               info.is_animated, info.num_frames, none⟩, h)
      | .error err =>
        match cstringNew err with
        | none => none
        | some s =>
          some (⟨false, 0, 0, false, false, 0, some (h.intoRaw s).1⟩, (h.intoRaw s).2)

/-- `free_error_message` (`src/lib.rs` lines 117-123): a null pointer is a
no-op; a non-null pointer is rebuilt into a `CString` (`CString::from_raw`)
and dropped, deallocating the block. -/
def free_error_message (h : Heap) (error_message : Option Nat) : Heap :=
  match error_message with
  | none => h
  | some p => ⟨h.next, h.blocks.filter (fun b => b.1 ≠ p)⟩

/-! ### Sample environments used to instantiate the hypotheses of the
claim theorems at concrete inputs. -/

/-- An environment on which every open succeeds and every probe reports a
static (non-animated) 2x3 image. -/
def envStaticOk : Env :=
  ⟨fun _ => .ok, fun _ => .ok ⟨2, 3, false, false, 0⟩⟩

/-- An environment on which every open succeeds and every probe reports an
animated 4x5 image with 7 frames and an alpha channel. -/
def envAnimatedOk : Env :=
  ⟨fun _ => .ok, fun _ => .ok ⟨4, 5, true, true, 7⟩⟩

/-- An environment on which every open fails the way a missing file does. -/
def envOpenErr : Env :=
  ⟨fun _ => .err "No such file or directory (os error 2)",
   fun _ => .ok ⟨1, 1, false, false, 0⟩⟩

/-- An environment on which every probe fails with a `ChunkHeaderInvalid`
decoding error. -/
def envChunkErr : Env :=
  ⟨fun _ => .ok, fun _ => .err ⟨"ChunkHeaderInvalid", "([1, 2, 3, 4])"⟩⟩

/-- An environment whose I/O error description contains an interior NUL
byte. -/
def envOpenErrNul : Env :=
  ⟨fun _ => .err (String.mk [Char.ofNat 0]),
   fun _ => .ok ⟨1, 1, false, false, 0⟩⟩

/-- An environment whose probe fails with an error whose payload rendering
contains an interior NUL byte. -/
def envProbeErrNul : Env :=
  ⟨fun _ => .ok, fun _ => .err ⟨"IoError", String.mk [Char.ofNat 0]⟩⟩

/-! ### Heap lemmas -/

/-- The block just allocated by `intoRaw` holds the allocated string. -/
theorem Heap.lookup_intoRaw_self (h : Heap) (s : String) :
    (h.intoRaw s).2.lookup (h.intoRaw s).1 = some s := by
  simp [Heap.intoRaw, Heap.lookup, List.find?]

/-- `intoRaw` leaves every other pointer's block unchanged. -/
theorem Heap.lookup_intoRaw_other (h : Heap) (s : String) (q : Nat)
    (hq : q ≠ (h.intoRaw s).1) :
    (h.intoRaw s).2.lookup q = h.lookup q := by
  simp only [Heap.intoRaw, Heap.lookup]
  rw [List.find?_cons_of_neg]
  simp only [beq_iff_eq]
  exact fun hc => hq hc.symm

/-- In a well-formed heap the bump cursor is not a live pointer. -/
theorem Heap.lookup_next_of_wf (h : Heap) (hwf : h.wf) :
    h.lookup h.next = none := by
  have hf : h.blocks.find? (fun b => b.1 == h.next) = none := by
    rw [List.find?_eq_none]
    intro b hb
    simp only [beq_iff_eq]
    exact Nat.ne_of_lt (hwf b hb)
  simp [Heap.lookup, hf]

/-- Freeing a pointer removes its block. -/
theorem free_lookup_self (h : Heap) (p : Nat) :
    (free_error_message h (some p)).lookup p = none := by
  have hf : (h.blocks.filter (fun b => b.1 ≠ p)).find? (fun b => b.1 == p)
      = none := by
    rw [List.find?_eq_none]
    intro b hb
    simp only [List.mem_filter, decide_not] at hb
    simpa [beq_iff_eq] using hb.2
  simp [free_error_message, Heap.lookup, hf]

/-- Freeing a pointer leaves every other pointer's block unchanged. -/
theorem free_lookup_other (h : Heap) (p q : Nat) (hq : q ≠ p) :
    (free_error_message h (some p)).lookup q = h.lookup q := by
  simp only [free_error_message, Heap.lookup]
  congr 1
  induction h.blocks with
  | nil => rfl
  | cons b l ih =>
    by_cases hb : b.1 = p
    · rw [List.filter_cons_of_neg (by simpa using hb), ih,
        List.find?_cons_of_neg]
      simp only [beq_iff_eq, hb]
      exact fun hc => hq hc.symm
    · rw [List.filter_cons_of_pos (by simpa using hb)]
      by_cases hbq : b.1 = q
      · rw [List.find?_cons_of_pos _ (by simpa using hbq),
          List.find?_cons_of_pos _ (by simpa using hbq)]
      · rw [List.find?_cons_of_neg _ (by simpa using hbq),
          List.find?_cons_of_neg _ (by simpa using hbq), ih]

/-! ### Reduction lemmas for `validate_webp` and `validate_webp_ffi` -/

/-- `validate_webp` when the open fails. -/
theorem validate_webp_open_err (env : Env) (path desc : String)
    (hopen : env.openFile path = .err desc) :
    validate_webp env path = .error ("failed to open file: " ++ desc) := by
  simp [validate_webp, hopen]

/-- `validate_webp` when the open succeeds and the probe succeeds. -/
theorem validate_webp_probe_ok (env : Env) (path : String) (d : WebPDecoder)
    (hopen : env.openFile path = .ok) (hprobe : env.probe path = .ok d) :
    validate_webp env path = .ok (WebpInfo.new_valid d) := by
  simp [validate_webp, hopen, hprobe]

/-- `validate_webp` when the open succeeds and the probe fails. -/
theorem validate_webp_probe_err (env : Env) (path : String) (e : DecodingError)
    (hopen : env.openFile path = .ok) (hprobe : env.probe path = .err e) :
    validate_webp env path =
      .error ("webp format validation failed: " ++ e.debugFmt) := by
  simp [validate_webp, hopen, hprobe]

/-- `validate_webp_ffi` on the null pointer. -/
theorem validate_webp_ffi_null (env : Env) (h : Heap) :
    validate_webp_ffi env h .null =
      some (⟨false, 0, 0, false, false, 0, some (h.intoRaw "path is null").1⟩,
            (h.intoRaw "path is null").2) := rfl

/-- `validate_webp_ffi` on bytes that are not valid UTF-8. -/
theorem validate_webp_ffi_invalid (env : Env) (h : Heap) (bs : List Nat)
    (hdec : cStrToStr bs = none) :
    validate_webp_ffi env h (.bytes bs) =
      some (⟨false, 0, 0, false, false, 0,
             some (h.intoRaw "invalid utf-8 in path").1⟩,
            (h.intoRaw "invalid utf-8 in path").2) := by
  simp only [validate_webp_ffi, hdec]
  rfl

/-- `validate_webp_ffi` when the decoded path validates successfully. -/
theorem validate_webp_ffi_ok (env : Env) (h : Heap) (bs : List Nat)
    (s : String) (info : WebpInfo) (hdec : cStrToStr bs = some s)
    (hv : validate_webp env s = .ok info) :
    validate_webp_ffi env h (.bytes bs) =
      some (⟨true, info.width, info.height, info.has_alpha, info.is_animated,
             info.num_frames, none⟩, h) := by
  simp [validate_webp_ffi, hdec, hv]

/-- `validate_webp_ffi` when validation fails with a NUL-free message. -/
theorem validate_webp_ffi_err (env : Env) (h : Heap) (bs : List Nat)
    (s msg : String) (hdec : cStrToStr bs = some s)
    (hv : validate_webp env s = .error msg)
    (hnul : msg.data.contains (Char.ofNat 0) = false) :
    validate_webp_ffi env h (.bytes bs) =
      some (⟨false, 0, 0, false, false, 0, some (h.intoRaw msg).1⟩,
            (h.intoRaw msg).2) := by
  simp only [validate_webp_ffi, hdec, hv, cstringNew]
  rw [if_neg (by simpa using hnul)]

/-- `validate_webp_ffi` when validation fails with a message containing an
interior NUL byte: `CString::new(err).unwrap()` panics, no record crosses
the boundary. -/
theorem validate_webp_ffi_err_nul (env : Env) (h : Heap) (bs : List Nat)
    (s msg : String) (hdec : cStrToStr bs = some s)
    (hv : validate_webp env s = .error msg)
    (hnul : msg.data.contains (Char.ofNat 0) = true) :
    validate_webp_ffi env h (.bytes bs) = none := by
  simp only [validate_webp_ffi, hdec, hv, cstringNew]
  rw [if_pos (by simpa using hnul)]

/-- The empty heap is well formed. -/
theorem Heap.empty_wf : Heap.empty.wf := by
  intro b hb
  simp [Heap.empty] at hb

/-- Neither failure prefix message can equal the other, whatever follows. -/
theorem open_format_messages_ne (a b : String) :
    "failed to open file: " ++ a ≠ "webp format validation failed: " ++ b := by
  intro hEq
  have h2 := congrArg String.data hEq
  rw [String.data_append, String.data_append,
    show ("failed to open file: ").data
      = 'f' :: "ailed to open file: ".data from rfl,
    show ("webp format validation failed: ").data
      = 'w' :: "ebp format validation failed: ".data from rfl] at h2
  exact absurd (List.cons.inj h2).1 (by decide)

/-- In every non-panicking branch of `validate_webp_ffi` whose record has a
non-null `error_message`, the returned heap holds a block behind it. -/
theorem ffi_error_block (env : Env) (h0 : Heap) (path : CPath)
    (r : WebpValidationResult) (h2 : Heap) (p : Nat)
    (hr : validate_webp_ffi env h0 path = some (r, h2))
    (hp : r.error_message = some p) :
    ∃ s, h2.lookup p = some s := by
  cases path with
  | null =>
    rw [validate_webp_ffi_null] at hr
    simp only [Option.some.injEq, Prod.mk.injEq] at hr
    obtain ⟨rfl, rfl⟩ := hr
    obtain rfl := Option.some.inj hp
    exact ⟨_, Heap.lookup_intoRaw_self h0 _⟩
  | bytes bs =>
    cases hdec : cStrToStr bs with
    | none =>
      rw [validate_webp_ffi_invalid env h0 bs hdec] at hr
      simp only [Option.some.injEq, Prod.mk.injEq] at hr
      obtain ⟨rfl, rfl⟩ := hr
      obtain rfl := Option.some.inj hp
      exact ⟨_, Heap.lookup_intoRaw_self h0 _⟩
    | some s =>
      cases hv : validate_webp env s with
      | ok info =>
        rw [validate_webp_ffi_ok env h0 bs s info hdec hv] at hr
        simp only [Option.some.injEq, Prod.mk.injEq] at hr
        obtain ⟨rfl, rfl⟩ := hr
        exact absurd hp (by simp)
      | error msg =>
        cases hnul : msg.data.contains (Char.ofNat 0) with
        | false =>
          rw [validate_webp_ffi_err env h0 bs s msg hdec hv hnul] at hr
          simp only [Option.some.injEq, Prod.mk.injEq] at hr
          obtain ⟨rfl, rfl⟩ := hr
          obtain rfl := Option.some.inj hp
          exact ⟨_, Heap.lookup_intoRaw_self h0 _⟩
        | true =>
          rw [validate_webp_ffi_err_nul env h0 bs s msg hdec hv hnul] at hr
          exact absurd hr (by simp)

/-! ### The claims -/

/-- C1: every record returned by `validate_webp_ffi` — for any path
pointer, path bytes and any decoder/IO outcome — satisfies the invariant:
`is_valid = true` holds iff `error_message` is the null pointer; never
both `is_valid` and a non-null message, never neither. -/
theorem C1_is_valid_iff_error_message_null (env : Env) (h : Heap)
    (path : CPath) (r : WebpValidationResult) (h2 : Heap)
    (hr : validate_webp_ffi env h path = some (r, h2)) :
    r.is_valid = true ↔ r.error_message = none := by
  cases path with
  | null =>
    rw [validate_webp_ffi_null] at hr
    simp only [Option.some.injEq, Prod.mk.injEq] at hr
    obtain ⟨rfl, rfl⟩ := hr
    simp
  | bytes bs =>
    cases hdec : cStrToStr bs with
    | none =>
      rw [validate_webp_ffi_invalid env h bs hdec] at hr
      simp only [Option.some.injEq, Prod.mk.injEq] at hr
      obtain ⟨rfl, rfl⟩ := hr
      simp
    | some s =>
      cases hv : validate_webp env s with
      | ok info =>
        rw [validate_webp_ffi_ok env h bs s info hdec hv] at hr
        simp only [Option.some.injEq, Prod.mk.injEq] at hr
        obtain ⟨rfl, rfl⟩ := hr
        simp
      | error msg =>
        cases hnul : msg.data.contains (Char.ofNat 0) with
        | false =>
          rw [validate_webp_ffi_err env h bs s msg hdec hv hnul] at hr
          simp only [Option.some.injEq, Prod.mk.injEq] at hr
          obtain ⟨rfl, rfl⟩ := hr
          simp
        | true =>
          rw [validate_webp_ffi_err_nul env h bs s msg hdec hv hnul] at hr
          exact absurd hr (by simp)

/-- C1 witness: the invariant on a concrete successful call. -/
theorem C1_witness :
    validate_webp_ffi envStaticOk Heap.empty (.bytes [104, 105]) =
      some (⟨true, 2, 3, false, false, 0, none⟩, Heap.empty) ∧
    ((true = true) ↔ (none : Option Nat) = none) :=
  ⟨rfl, C1_is_valid_iff_error_message_null envStaticOk Heap.empty
    (.bytes [104, 105]) ⟨true, 2, 3, false, false, 0, none⟩ Heap.empty rfl⟩

/-- C2 counterexample: the claim that `validate_webp_ffi` completes
normally for every decoder/IO outcome fails.  With an I/O error
description consisting of a single NUL character, the failure message
"failed to open file: \x00" contains an interior NUL byte, so
`CString::new(err).unwrap()` panics and no record crosses the boundary. -/
theorem C2_counterexample :
    validate_webp_ffi envOpenErrNul Heap.empty (CPath.bytes [97]) = none := rfl

/-- C2 (amended): provided no failure message `validate_webp` can produce
for the environment contains an interior NUL byte, `validate_webp_ffi`
completes normally and returns a record for every path pointer; the fixed
messages of the null-pointer and invalid-UTF-8 branches always convert. -/
theorem C2_no_panic_without_nul (env : Env) (h : Heap) (path : CPath)
    (hnul : ∀ s msg, validate_webp env s = .error msg →
      msg.data.contains (Char.ofNat 0) = false) :
    ∃ r h2, validate_webp_ffi env h path = some (r, h2) := by
  cases path with
  | null => exact ⟨_, _, validate_webp_ffi_null env h⟩
  | bytes bs =>
    cases hdec : cStrToStr bs with
    | none => exact ⟨_, _, validate_webp_ffi_invalid env h bs hdec⟩
    | some s =>
      cases hv : validate_webp env s with
      | ok info => exact ⟨_, _, validate_webp_ffi_ok env h bs s info hdec hv⟩
      | error msg =>
        exact ⟨_, _,
          validate_webp_ffi_err env h bs s msg hdec hv (hnul s msg hv)⟩

/-- C2 witness: the amended claim on a concrete NUL-free environment. -/
theorem C2_witness :
    ∃ r h2, validate_webp_ffi envStaticOk Heap.empty (.bytes [97]) =
      some (r, h2) :=
  C2_no_panic_without_nul envStaticOk Heap.empty (.bytes [97])
    (fun s msg hmsg => by simp [validate_webp, envStaticOk] at hmsg)

/-- C3 counterexample: the claim that for a non-null valid-UTF-8 pointer
every `Err(message)` of `validate_webp` is mapped to a failure record
fails.  On the valid-UTF-8 path "a" the probe fails with an error whose
payload rendering contains a NUL character, `validate_webp` returns `Err`,
yet `validate_webp_ffi` panics in `CString::new(err).unwrap()` and returns
no record at all. -/
theorem C3_counterexample :
    cStrToStr [97] = some "a" ∧
    (∃ msg, validate_webp envProbeErrNul "a" = .error msg) ∧
    validate_webp_ffi envProbeErrNul Heap.empty (CPath.bytes [97]) = none :=
  ⟨rfl, ⟨_, rfl⟩, rfl⟩

/-- C3 (amended): for every non-null pointer whose bytes decode as UTF-8,
`validate_webp_ffi` agrees with `validate_webp` on the decoded path: `Ok`
maps to a record with `is_valid` true, the five metadata fields copied and
a null `error_message`, the heap untouched; `Err(msg)` — provided `msg`
has no interior NUL byte, since otherwise the conversion panics — maps to
a record with `is_valid` false, zero/false metadata and an `error_message`
pointing at a newly allocated block holding exactly `msg`, all other
blocks unchanged. -/
theorem C3_ffi_agrees_with_validate (env : Env) (h : Heap) (bs : List Nat)
    (s : String) (hdec : cStrToStr bs = some s) (hwf : h.wf) :
    (∀ info, validate_webp env s = .ok info →
      validate_webp_ffi env h (.bytes bs) =
        some (⟨true, info.width, info.height, info.has_alpha,
               info.is_animated, info.num_frames, none⟩, h)) ∧
    (∀ msg, validate_webp env s = .error msg →
      msg.data.contains (Char.ofNat 0) = false →
      ∃ p h2, validate_webp_ffi env h (.bytes bs) =
          some (⟨false, 0, 0, false, false, 0, some p⟩, h2) ∧
        h.lookup p = none ∧ h2.lookup p = some msg ∧
        ∀ q, q ≠ p → h2.lookup q = h.lookup q) := by
  constructor
  · intro info hv
    exact validate_webp_ffi_ok env h bs s info hdec hv
  · intro msg hv hnul
    refine ⟨(h.intoRaw msg).1, (h.intoRaw msg).2,
      validate_webp_ffi_err env h bs s msg hdec hv hnul,
      Heap.lookup_next_of_wf h hwf,
      Heap.lookup_intoRaw_self h msg,
      fun q hq => Heap.lookup_intoRaw_other h msg q hq⟩

/-- C3 witness: the amended claim on a concrete successful call. -/
theorem C3_witness :
    validate_webp_ffi envStaticOk Heap.empty (.bytes [98]) =
      some (⟨true, 2, 3, false, false, 0, none⟩, Heap.empty) :=
  (C3_ffi_agrees_with_validate envStaticOk Heap.empty [98] "b" rfl
    Heap.empty_wf).1 ⟨2, 3, false, false, 0⟩ rfl

/-- C4: `validate_webp_ffi` validates its foreign input before any use.
On the null pointer it returns a failure record whose message block reads
exactly "path is null", and the result is the same under every environment
(nothing is dereferenced, no file is accessed).  On bytes that are not
valid UTF-8 it returns a failure record whose message block reads exactly
"invalid utf-8 in path", again identically under every environment (no
file access, the Validator is never reached). -/
theorem C4_foreign_input_validation (env : Env) (h : Heap) :
    (∃ p h2, validate_webp_ffi env h .null =
        some (⟨false, 0, 0, false, false, 0, some p⟩, h2) ∧
        h2.lookup p = some "path is null" ∧
        ∀ env2 : Env, validate_webp_ffi env2 h .null =
          validate_webp_ffi env h .null) ∧
    (∀ bs, cStrToStr bs = none →
      ∃ p h2, validate_webp_ffi env h (.bytes bs) =
          some (⟨false, 0, 0, false, false, 0, some p⟩, h2) ∧
        h2.lookup p = some "invalid utf-8 in path" ∧
        ∀ env2 : Env, validate_webp_ffi env2 h (.bytes bs) =
          validate_webp_ffi env h (.bytes bs)) := by
  constructor
  · refine ⟨(h.intoRaw "path is null").1, (h.intoRaw "path is null").2,
      validate_webp_ffi_null env h, Heap.lookup_intoRaw_self h _, ?_⟩
    intro env2
    rw [validate_webp_ffi_null, validate_webp_ffi_null]
  · intro bs hdec
    refine ⟨(h.intoRaw "invalid utf-8 in path").1,
      (h.intoRaw "invalid utf-8 in path").2,
      validate_webp_ffi_invalid env h bs hdec,
      Heap.lookup_intoRaw_self h _, ?_⟩
    intro env2
    rw [validate_webp_ffi_invalid env2 h bs hdec,
      validate_webp_ffi_invalid env h bs hdec]

/-- C4 witness: the invalid-UTF-8 half at the byte 0xFF, plus the
null-pointer half, on a concrete heap and environment. -/
theorem C4_witness :
    ∃ p h2, validate_webp_ffi envOpenErr Heap.empty (.bytes [255]) =
        some (⟨false, 0, 0, false, false, 0, some p⟩, h2) ∧
      h2.lookup p = some "invalid utf-8 in path" ∧
      ∀ env2 : Env, validate_webp_ffi env2 Heap.empty (.bytes [255]) =
        validate_webp_ffi envOpenErr Heap.empty (.bytes [255]) :=
  (C4_foreign_input_validation envOpenErr Heap.empty).2 [255] rfl

/-- C5: when the decoder's probe fails with a structured error,
`validate_webp` returns `Err` whose message is the prefix
"webp format validation failed: " followed by the decoder error's `{:?}`
rendering, in which the error's tag name appears verbatim as a substring
— distinct decoder tags remain distinguishable by substring. -/
theorem C5_probe_failure_message (env : Env) (path : String)
    (e : DecodingError) (hopen : env.openFile path = .ok)
    (hprobe : env.probe path = .err e) :
    validate_webp env path =
      .error ("webp format validation failed: " ++ e.debugFmt) ∧
    ∃ l r, ("webp format validation failed: " ++ e.debugFmt).data =
      l ++ e.tag.data ++ r := by
  refine ⟨validate_webp_probe_err env path e hopen hprobe,
    ("webp format validation failed: ").data, e.payload.data, ?_⟩
  simp [String.data_append, DecodingError.debugFmt]

/-- C5 witness: a `ChunkHeaderInvalid` probe failure on a concrete
environment. -/
theorem C5_witness :
    validate_webp envChunkErr "a" =
      .error ("webp format validation failed: " ++
        DecodingError.debugFmt ⟨"ChunkHeaderInvalid", "([1, 2, 3, 4])"⟩) ∧
    ∃ l r, ("webp format validation failed: " ++
        DecodingError.debugFmt ⟨"ChunkHeaderInvalid", "([1, 2, 3, 4])"⟩).data =
      l ++ ("ChunkHeaderInvalid" : String).data ++ r :=
  C5_probe_failure_message envChunkErr "a"
    ⟨"ChunkHeaderInvalid", "([1, 2, 3, 4])"⟩ rfl rfl

/-- C6: when opening the file fails, `validate_webp` returns `Err` with
"failed to open file: " followed by the I/O error description, and the
decoder probe is never invoked: every environment agreeing on that open
failure — whatever its probe does — produces the same result. -/
theorem C6_open_failure (env : Env) (path desc : String)
    (hopen : env.openFile path = .err desc) :
    validate_webp env path = .error ("failed to open file: " ++ desc) ∧
    ∀ env2 : Env, env2.openFile path = .err desc →
      validate_webp env2 path = validate_webp env path := by
  refine ⟨validate_webp_open_err env path desc hopen, ?_⟩
  intro env2 hopen2
  rw [validate_webp_open_err env2 path desc hopen2,
    validate_webp_open_err env path desc hopen]

/-- C6 witness: a concrete missing-file environment. -/
theorem C6_witness :
    validate_webp envOpenErr "a" =
      .error ("failed to open file: " ++
        "No such file or directory (os error 2)") ∧
    ∀ env2 : Env,
      env2.openFile "a" = .err "No such file or directory (os error 2)" →
      validate_webp env2 "a" = validate_webp envOpenErr "a" :=
  C6_open_failure envOpenErr "a" "No such file or directory (os error 2)" rfl

/-- C7: when the probe succeeds, `validate_webp` returns `Ok` carrying the
decoder's metadata unchanged: for a non-animated image (animation flag
false, zero declared frames, positive dimensions) the returned info has
`is_animated = false`, `num_frames = 0` and positive width and height;
for an animated image with N > 1 declared frames it has
`is_animated = true` and `num_frames = N`. -/
theorem C7_success_metadata (env : Env) (path : String) (d : WebPDecoder)
    (hopen : env.openFile path = .ok) (hprobe : env.probe path = .ok d) :
    (d.is_animated = false → d.num_frames = 0 → 0 < d.width →
      0 < d.height →
      ∃ info, validate_webp env path = .ok info ∧
        info.is_animated = false ∧ info.num_frames = 0 ∧
        0 < info.width ∧ 0 < info.height) ∧
    (∀ N, d.is_animated = true → d.num_frames = N → 1 < N →
      ∃ info, validate_webp env path = .ok info ∧
        info.is_animated = true ∧ info.num_frames = N) := by
  constructor
  · intro h1 h2 h3 h4
    exact ⟨WebpInfo.new_valid d,
      validate_webp_probe_ok env path d hopen hprobe, h1, h2, h3, h4⟩
  · intro N h1 h2 h3
    exact ⟨WebpInfo.new_valid d,
      validate_webp_probe_ok env path d hopen hprobe, h1, h2⟩

/-- C7 witness: a static 2x3 image and an animated 7-frame image on
concrete environments. -/
theorem C7_witness :
    (∃ info, validate_webp envStaticOk "a" = .ok info ∧
      info.is_animated = false ∧ info.num_frames = 0 ∧
      0 < info.width ∧ 0 < info.height) ∧
    (∃ info, validate_webp envAnimatedOk "a" = .ok info ∧
      info.is_animated = true ∧ info.num_frames = 7) :=
  ⟨(C7_success_metadata envStaticOk "a" ⟨2, 3, false, false, 0⟩ rfl rfl).1
      rfl rfl (by decide) (by decide),
   (C7_success_metadata envAnimatedOk "a" ⟨4, 5, true, true, 7⟩ rfl rfl).2
      7 rfl rfl (by decide)⟩

/-- C8: `free_error_message` on the null pointer is a no-op on the heap;
on a non-null pointer produced as `validate_webp_ffi`'s `error_message`
field it reclaims exactly that live allocation — the pointer's block
exists beforehand, is gone afterwards, and every other pointer's block is
untouched — and, being a total function on the heap, it cannot crash. -/
theorem C8_free_error_message (h : Heap) :
    free_error_message h none = h ∧
    (∀ env h0 path r h2 p,
      validate_webp_ffi env h0 path = some (r, h2) →
      r.error_message = some p →
      (∃ s, h2.lookup p = some s) ∧
      (free_error_message h2 (some p)).lookup p = none ∧
      ∀ q, q ≠ p →
        (free_error_message h2 (some p)).lookup q = h2.lookup q) := by
  refine ⟨rfl, ?_⟩
  intro env h0 path r h2 p hr hp
  exact ⟨ffi_error_block env h0 path r h2 p hr hp,
    free_lookup_self h2 p, fun q hq => free_lookup_other h2 p q hq⟩

/-- C8 witness: releasing the message allocated by a null-pointer call. -/
theorem C8_witness :
    (∃ s, (Heap.mk 1 [(0, "path is null")]).lookup 0 = some s) ∧
    (free_error_message ⟨1, [(0, "path is null")]⟩ (some 0)).lookup 0 =
      none ∧
    ∀ q, q ≠ 0 →
      (free_error_message ⟨1, [(0, "path is null")]⟩ (some 0)).lookup q =
        (Heap.mk 1 [(0, "path is null")]).lookup q :=
  (C8_free_error_message Heap.empty).2 envStaticOk Heap.empty .null
    ⟨false, 0, 0, false, false, 0, some 0⟩ ⟨1, [(0, "path is null")]⟩ 0
    rfl rfl

/-- C9: the native surface `validate_webp` is total: for every path and
every decoder/IO outcome it returns `Ok` or `Err`; in particular an I/O
error description containing arbitrary characters (such as an interior
NUL) is still returned as an `Err` value — there is no fallible string
conversion on this surface. -/
theorem C9_validate_webp_total (env : Env) (path : String) :
    ((∃ info, validate_webp env path = .ok info) ∨
      (∃ msg, validate_webp env path = .error msg)) ∧
    (∀ desc : String, ∀ pr : String → ProbeOutcome,
      validate_webp ⟨fun _ => .err desc, pr⟩ path =
        .error ("failed to open file: " ++ desc)) := by
  constructor
  · cases hopen : env.openFile path with
    | err d => exact Or.inr ⟨_, validate_webp_open_err env path d hopen⟩
    | ok =>
      cases hprobe : env.probe path with
      | ok d =>
        exact Or.inl ⟨_, validate_webp_probe_ok env path d hopen hprobe⟩
      | err e =>
        exact Or.inr ⟨_, validate_webp_probe_err env path e hopen hprobe⟩
  · intro desc pr
    exact validate_webp_open_err ⟨fun _ => .err desc, pr⟩ path desc rfl

/-- C10: the failure taxonomy of `validate_webp` is exhaustive and
disjoint: every `Err` message starts with exactly one of the prefixes
"failed to open file: " and "webp format validation failed: ", so a
caller can classify any failure by prefix alone. -/
theorem C10_error_taxonomy (env : Env) (path msg : String)
    (hv : validate_webp env path = .error msg) :
    ((∃ d, msg = "failed to open file: " ++ d) ∧
      ¬∃ d, msg = "webp format validation failed: " ++ d) ∨
    ((∃ d, msg = "webp format validation failed: " ++ d) ∧
      ¬∃ d, msg = "failed to open file: " ++ d) := by
  cases hopen : env.openFile path with
  | err d =>
    rw [validate_webp_open_err env path d hopen] at hv
    obtain rfl := (Except.error.inj hv).symm
    exact Or.inl ⟨⟨d, rfl⟩,
      fun ⟨e, hE⟩ => open_format_messages_ne d e hE⟩
  | ok =>
    cases hprobe : env.probe path with
    | ok d2 =>
      rw [validate_webp_probe_ok env path d2 hopen hprobe] at hv
      exact absurd hv (by simp)
    | err e =>
      rw [validate_webp_probe_err env path e hopen hprobe] at hv
      obtain rfl := (Except.error.inj hv).symm
      exact Or.inr ⟨⟨e.debugFmt, rfl⟩,
        fun ⟨a, hA⟩ => open_format_messages_ne a e.debugFmt hA.symm⟩

/-- C10 witness: classification of a concrete open failure. -/
theorem C10_witness :
    ((∃ d, ("failed to open file: " ++
        "No such file or directory (os error 2)" : String) =
        "failed to open file: " ++ d) ∧
      ¬∃ d, ("failed to open file: " ++
        "No such file or directory (os error 2)" : String) =
        "webp format validation failed: " ++ d) ∨
    ((∃ d, ("failed to open file: " ++
        "No such file or directory (os error 2)" : String) =
        "webp format validation failed: " ++ d) ∧
      ¬∃ d, ("failed to open file: " ++
        "No such file or directory (os error 2)" : String) =
        "failed to open file: " ++ d) :=
  C10_error_taxonomy envOpenErr "b"
    ("failed to open file: " ++ "No such file or directory (os error 2)")
    rfl

end WebpValidator
